import Mathlib

/-!
Shallow embedding of `src/server.py` (a Flask app exposing POST /api/route-plan).

Python values flowing through the handler are modelled by a JSON-like inductive
type `Json`; Python truthiness, `dict.get`, `or`-chains and `str.strip` are
modelled explicitly.  Attribute errors raised by calling `.get` or `.strip()`
on a value of the wrong type are modelled by `Except PyErr`; an `.error`
result corresponds to an exception propagating out of the modelled code.
The upstream Azure OpenAI call is modelled by an `UpstreamOutcome` parameter;
the handler result records whether the call was attempted and with which
message list.
-/

namespace RoutePlan

/-- JSON-like values, standing for the Python values (None, bool, int/float,
str, list, dict) that flow through the handler.  Dicts are insertion-ordered
key/value lists, as in Python. -/
inductive Json where
  | null
  | bool (b : Bool)
  | num (n : Int)
  | str (s : String)
  | arr (xs : List Json)
  | obj (kvs : List (String × Json))

/-- Python truthiness of a value (`bool(x)`). -/
def Json.truthy : Json → Bool
  | .null => false
  | .bool b => b
  | .num n => n != 0
  | .str s => s != ""
  | .arr xs => !xs.isEmpty
  | .obj kvs => !kvs.isEmpty

/-- Python `a or b` (value-returning, by truthiness). -/
def pyOr (a b : Json) : Json :=
  if a.truthy then a else b

/-- Python exceptions that the modelled code can raise.  Only attribute
errors (calling `.get`/`.strip()` on a value lacking the method) occur in
the modelled fragment. -/
inductive PyErr where
  | attributeError
  deriving DecidableEq, Repr

/-- Python `x.get(key)`: defined on dicts (returning `None`, i.e. `.null`,
for a missing key), and an `AttributeError` on every other value. -/
def Json.get : Json → String → Except PyErr Json
  | .obj kvs, key => .ok ((kvs.lookup key).getD .null)
  | _, _ => .error .attributeError

/-- Python `s.strip()` on a string: drop leading and trailing whitespace.
`Char.isWhitespace` covers space, tab, CR and LF; Python additionally
strips some rarer Unicode whitespace, which no claim exercises. -/
def pyStripString (s : String) : String :=
  String.mk (((s.data.dropWhile Char.isWhitespace).reverse.dropWhile
    Char.isWhitespace).reverse)

/-- Python `x.strip()`: defined on strings, an `AttributeError` on every
other value. -/
def pyStrip : Json → Except PyErr String
  | .str s => .ok (pyStripString s)
  | _ => .error .attributeError

/-- Whether a value is a Python list. -/
def Json.isArr : Json → Bool
  | .arr _ => true
  | _ => false

/-- Whether a value is a Python dict. -/
def Json.isObj : Json → Bool
  | .obj _ => true
  | _ => false

/-- The fixed system instruction text from `server.py` (`SYSTEM_PROMPT`). -/
def SYSTEM_PROMPT : String :=
  "角色\n" ++
  "你是一位專業的路線排程專家，可以洞察醫療端以及民眾段的需求以及人性，並熟知交通不同時段狀況以及當地文化習慣，" ++
  "總是用盡全力與相關背景知識與工具來逐步推理出令人滿意的訪視路線。\n\n\n" ++
  "格式\n" ++
  "1. 以臺灣繁體中文來呈現“訪視時間表”、“訪視路線排程結果”以及“排程考量與貼心提醒”。\n" ++
  "2. 訪視時間表必須包含這些項目：順序、地點類別、名稱/病人姓名、地址、時間。\n" ++
  "3. 時間格式為24小時制，HH：MM 。\n" ++
  "4. ”訪視路線排程結果“則是會在訪視時間表下方呈現一個連結按鈕（排程路線地圖），點按之後可以連結到Google地圖應用程式或是網頁，呈現訪視路線地圖。\n" ++
  "5. “排程考量與貼心提醒”：簡易說明這份訪視路線排程要注意的地方。\n\n\n\n" ++
  "指令\n" ++
  "1. 必須遵守角色設定，還有以臺灣繁體中文來呈現方式時間表以及路線排程結果。\n" ++
  "2.先置放完優先事項的時間點或是特殊訪視時段要求以及限制之後才能開始排程。\n" ++
  "3. 排程前必須先調用Google Map的Function去得到任兩點的交通距離以及時間。\n" ++
  "4. 依據特殊個案的優先指定時段還有得到的任兩點交通距離時間再來遵守「拓撲排序」邏輯來編排訪視路線。\n" ++
  "5.訪視後的路線必須完成特殊個案的優先指定時段以及最佳經濟效率的路線排班。\n" ++
  "6. 排完路線後，需要呈現完整詳細的訪視時間表以及在Google 地圖上畫出訪視路線地圖。\n" ++
  "7. 訪視時間表必須包含這些項目：順序、地點類別、名稱/病人姓名、地址、時間。\n" ++
  "8. 順序：保留項目名稱為阿拉伯數字，出發點為0。\n" ++
  "9. 地點類別：保留項目名稱，項目包含：出發點、病人、用餐、終點。\n" ++
  "10.名稱/病人姓名：保留項目名稱，項目包含：起點名稱、病人姓名（+特殊時段需求/極簡背景備註）、終點名稱\n" ++
  "11. 地址：保留項目名稱，寫出對應的地址資訊，用餐地址空白即可。\n" ++
  "12. 時間：保留項目名稱，項目包含起點出發時間（出發點）、抵達時間（病人）、訪視停留時間（病人）、離開時間（彬病人）、用餐時間（移動緩衝時間）、抵達時間（終點）。時間格式為24小時制，HH：MM 。\n" ++
  "13. ”訪視路線排程結果“則是會在訪視時間表下方呈現一個連結按鈕（排程路線地圖），點按之後可以連結到Google地圖應用程式或是網頁，呈現訪視路線地圖。\n" ++
  "14. “排程考量與貼心提醒”：在”訪視路線排程結果“之後，簡易說明這份訪視路線排程要注意的地方，禁止說到拓撲兩個字，只需要說名是否有符合特殊時段需求以及最佳路線排程即可。\n" ++
  "15. 病人訪視一定要嚴格遵守「拓撲排序」邏輯。"

/-- A single text content part, `{"type": "text", "text": s}`. -/
def textPart (s : String) : Json :=
  .obj [("type", .str "text"), ("text", .str s)]

/-- An outbound chat message `{"role": role, "content": parts}`.  The role is
kept as the raw value from the request (the code performs no role
validation), the content is the list of content parts. -/
structure ChatMessage where
  role : Json
  content : List Json

/-- The fixed leading system message built at the top of
`_normalize_messages`. -/
def systemMessage : ChatMessage :=
  ⟨.str "system", [textPart SYSTEM_PROMPT]⟩

/-- The trailing user message appended for a truthy prompt. -/
def userMessage (prompt : String) : ChatMessage :=
  ⟨.str "user", [textPart prompt]⟩

/-- One iteration of the `for message in user_messages` loop body of
`_normalize_messages`: `.ok none` models `continue` (entry skipped),
`.ok (some m)` models appending `m`, `.error` models an exception
(e.g. `message.get` on a non-dict entry). -/
def normalizeEntry (message : Json) : Except PyErr (Option ChatMessage) := do
  let role ← message.get "role"
  let content ← message.get "content"
  if role.truthy = false then
    return none
  else
    match content with
    | .null => return none
    | .str s => return some ⟨role, [textPart s]⟩
    | .arr parts => return some ⟨role, parts⟩
    | _ => return none

/-- The history loop of `_normalize_messages`, in iteration order. -/
def normalizeHistory : List Json → Except PyErr (List ChatMessage)
  | [] => .ok []
  | message :: rest => do
    let entry ← normalizeEntry message
    let tail ← normalizeHistory rest
    match entry with
    | some m => return m :: tail
    | none => return tail

/-- `_normalize_messages(user_messages, prompt)` from `server.py`: the fixed
system message, then the filtered history, then (for a truthy prompt) a
trailing user message. -/
def _normalize_messages (user_messages : List Json) (prompt : String) :
    Except PyErr (List ChatMessage) := do
  let hist ← normalizeHistory user_messages
  return systemMessage :: hist ++ (if prompt = "" then [] else [userMessage prompt])

/-- The process environment fragment read by `build_client` (`os.getenv`
returns `none` for an unset variable). -/
structure Env where
  azure_openai_endpoint : Option String := none
  endpoint_url : Option String := none
  azure_openai_deployment : Option String := none
  deployment_name : Option String := none
  azure_openai_api_key : Option String := none
  azure_openai_api_version : Option String := none

/-- Python `a or b` on `os.getenv` results (`None` and `""` are falsy). -/
def pyOrStr (a b : Option String) : Option String :=
  match a with
  | some s => if s = "" then b else some s
  | none => b

/-- Python falsiness of an optional string (`not x` for `x` a `str` or
`None`). -/
def optFalsy : Option String → Bool
  | none => true
  | some s => s = ""

/-- Endpoint resolution: `os.getenv("AZURE_OPENAI_ENDPOINT") or
os.getenv("ENDPOINT_URL")`. -/
def resolveEndpoint (env : Env) : Option String :=
  pyOrStr env.azure_openai_endpoint env.endpoint_url

/-- Deployment resolution: `os.getenv("AZURE_OPENAI_DEPLOYMENT") or
os.getenv("DEPLOYMENT_NAME")`. -/
def resolveDeployment (env : Env) : Option String :=
  pyOrStr env.azure_openai_deployment env.deployment_name

/-- The `ConfigurationError` message raised by `build_client`. -/
def configErrorMessage : String :=
  "Azure OpenAI 設定不完整，請確認 AZURE_OPENAI_ENDPOINT、AZURE_OPENAI_DEPLOYMENT 以及 AZURE_OPENAI_API_KEY 已設定於環境變數或 .env。"

/-- The value built by `build_client`: the data the cached client carries
(endpoint, key and API version configure the `AzureOpenAI` client; the
deployment name is returned alongside it). -/
structure ClientInfo where
  endpoint : String
  api_key : String
  api_version : String
  deployment : String
  deriving DecidableEq, Repr

/-- `build_client()` from `server.py` without the `lru_cache` layer:
resolves the four settings and raises `ConfigurationError` (modelled as
`.error` carrying the message) when endpoint, deployment or API key is
falsy after fallbacks. -/
def build_client (env : Env) : Except String ClientInfo :=
  let endpoint := resolveEndpoint env
  let deployment := resolveDeployment env
  let api_key := env.azure_openai_api_key
  let api_version := env.azure_openai_api_version.getD "2025-01-01-preview"
  if optFalsy endpoint || optFalsy deployment || optFalsy api_key then
    .error configErrorMessage
  else
    .ok ⟨endpoint.getD "", api_key.getD "", api_version, deployment.getD ""⟩

/-- The `@lru_cache(maxsize=1)` layer over `build_client`: a successful
result is cached and reused by later calls; an exception is not cached, so
a failing call recomputes (the environment being static, it fails the same
way).  Returns the call's outcome and the cache state afterwards. -/
def build_client_cached (env : Env) (cache : Option ClientInfo) :
    Except String ClientInfo × Option ClientInfo :=
  match cache with
  | some c => (.ok c, some c)
  | none =>
    match build_client env with
    | .ok c => (.ok c, some c)
    | .error e => (.error e, none)

/-- An upstream choice's message (`choice.message`): its `content` may be
absent (`None`) and it carries the responding `role`. -/
structure UpMessage where
  content : Option String
  role : String

/-- One upstream completion choice. -/
structure Choice where
  message : Option UpMessage
  finish_reason : Option String

/-- The upstream completion object consumed by the handler: the list of
choices plus opaque usage statistics. -/
structure Completion where
  choices : List Choice
  usage : Option Json

/-- Outcome of the `chat.completions.create` call: a completion, or any
exception raised by the call (network/service failure), carried as its
string rendering. -/
inductive UpstreamOutcome where
  | ok (completion : Completion)
  | err (detail : String)

/-- An HTTP response: status code and JSON body (an insertion-ordered
dict). -/
structure Resp where
  status : Nat
  body : List (String × Json)

/-- What one invocation of the handler did: its response, whether the
upstream completion call was attempted, and with which message list. -/
structure HandlerResult where
  response : Resp
  upstreamCalled : Bool
  sentMessages : Option (List ChatMessage)

/-- `payload = request.get_json(silent=True) or {}`: `parsed` is `none` on a
JSON parse failure (Flask returns `None`), otherwise the parsed value. -/
def extractPayload (parsed : Option Json) : Json :=
  pyOr (parsed.getD .null) (.obj [])

/-- `(payload.get("prompt") or payload.get("user_prompt") or "").strip()`. -/
def extractPrompt (payload : Json) : Except PyErr String := do
  let promptField ← payload.get "prompt"
  let userPromptField ← payload.get "user_prompt"
  pyStrip (pyOr promptField (pyOr userPromptField (.str "")))

/-- `user_messages = payload.get("messages") or []`. -/
def extractMessages (payload : Json) : Except PyErr Json := do
  let messagesField ← payload.get "messages"
  return pyOr messagesField (.arr [])

/-- `user_messages if isinstance(user_messages, list) else []`. -/
def asList : Json → List Json
  | .arr xs => xs
  | _ => []

/-- The 400 validation error message. -/
def validationErrorMessage : String :=
  "請提供至少一段訪視需求說明或歷史對話。"

/-- The generic 502 upstream failure message. -/
def upstreamErrorMessage : String :=
  "Azure OpenAI 服務呼叫失敗"

/-- Response shaping of the success branch (lines 140-156 of `server.py`):
`content` from the first choice's message content defaulting to `""`,
`usage` always present (possibly `None`), `finish_reason` added when the
choice has a truthy finish reason, `message_role` added when the choice has
a message. -/
def successBody (completion : Completion) : List (String × Json) :=
  let choice := completion.choices.head?
  let message_content :=
    match choice with
    | some ch =>
      match ch.message with
      | some m => m.content.getD ""
      | none => ""
    | none => ""
  [("content", Json.str message_content),
   ("usage", (completion.usage).getD .null)] ++
  (match choice with
   | some ch =>
     match ch.finish_reason with
     | some fr => if fr = "" then [] else [("finish_reason", Json.str fr)]
     | none => []
   | none => []) ++
  (match choice with
   | some ch =>
     match ch.message with
     | some m => [("message_role", Json.str m.role)]
     | none => []
   | none => [])

/-- The POST /api/route-plan handler (`generate_route_plan` in
`server.py`).  `parsed` is the (attempted) JSON parse of the request body,
`env` the process environment and `up` the outcome the upstream call would
produce.  A `.error` result models an exception escaping the handler
unhandled. -/
def generate_route_plan (env : Env) (up : UpstreamOutcome) (parsed : Option Json) :
    Except PyErr HandlerResult := do
  let payload := extractPayload parsed
  let prompt ← extractPrompt payload
  let user_messages ← extractMessages payload
  if prompt = "" && user_messages.truthy = false then
    return ⟨⟨400, [("error", .str validationErrorMessage)]⟩, false, none⟩
  else
    let messages ← _normalize_messages (asList user_messages) prompt
    match build_client env with
    | .error e => return ⟨⟨500, [("error", .str e)]⟩, false, none⟩
    | .ok _ =>
      match up with
      | .err detail =>
        return ⟨⟨502, [("error", .str upstreamErrorMessage), ("detail", .str detail)]⟩,
                true, some messages⟩
      | .ok completion =>
        return ⟨⟨200, successBody completion⟩, true, some messages⟩

/-- The per-entry history filter as the spec words it ("skip entries
lacking a role or lacking content; a plain-string content is wrapped as a
single text content part; a list content passes through unchanged; any
other content shape causes the entry to be skipped"), as a total function
on JSON object entries, to be compared with the loop body of
`_normalize_messages`. -/
def entrySpec (entry : Json) : Option ChatMessage :=
  match entry with
  | .obj kvs =>
    let role := (kvs.lookup "role").getD .null
    let content := (kvs.lookup "content").getD .null
    if role.truthy = false then none
    else
      match content with
      | .null => none
      | .str s => some ⟨role, [textPart s]⟩
      | .arr parts => some ⟨role, parts⟩
      | _ => none
  | _ => none

/-- Whether an outbound message is the system-instruction message: role
`"system"` and content a single text part whose text is `SYSTEM_PROMPT`. -/
def isSystemPromptMsg (m : ChatMessage) : Bool :=
  match m with
  | ⟨.str r, [.obj [("type", .str t), ("text", .str s)]]⟩ =>
    r == "system" && t == "text" && s == SYSTEM_PROMPT
  | _ => false

/-- A history entry that replays the system instruction as its content. -/
def sysHistEntry : Json :=
  .obj [("role", .str "system"), ("content", .str SYSTEM_PROMPT)]

/-- An environment with none of the Azure OpenAI variables set. -/
def envEmpty : Env := {}

/-- An environment with the three mandatory variables set (API version left
unset, so the default applies). -/
def envFull : Env :=
  { azure_openai_endpoint := some "https://example.azure.com",
    azure_openai_deployment := some "gpt-dep",
    azure_openai_api_key := some "secret-key" }

/-- A sample upstream completion with one full choice, for witnesses. -/
def sampleCompletion : Completion :=
  ⟨[⟨some ⟨some "訪視時間表：排程完成", "assistant"⟩, some "stop"⟩], some (.obj [])⟩

section HelperLemmas

theorem normalizeEntry_obj (kvs : List (String × Json)) :
    normalizeEntry (.obj kvs) = .ok (entrySpec (.obj kvs)) := by
  unfold normalizeEntry entrySpec
  simp only [Json.get, Except.bind, bind, pure, Except.pure]
  cases hr : ((kvs.lookup "role").getD Json.null).truthy <;>
    cases hc : (kvs.lookup "content").getD Json.null <;>
      simp [hr, hc]

theorem normalizeHistory_objs (msgs : List Json) (h : ∀ m ∈ msgs, m.isObj = true) :
    normalizeHistory msgs = .ok (msgs.filterMap entrySpec) := by
  induction msgs with
  | nil => rfl
  | cons m rest ih =>
    have hm : m.isObj = true := h m (List.mem_cons_self m rest)
    have hrest : normalizeHistory rest = .ok (rest.filterMap entrySpec) :=
      ih fun x hx => h x (List.mem_cons_of_mem m hx)
    cases m with
    | obj kvs =>
      unfold normalizeHistory
      rw [normalizeEntry_obj]
      simp only [Except.bind, bind, pure, Except.pure, hrest]
      cases he : entrySpec (.obj kvs) <;> simp [List.filterMap_cons, he]
    | null => simp [Json.isObj] at hm
    | bool b => simp [Json.isObj] at hm
    | num n => simp [Json.isObj] at hm
    | str s => simp [Json.isObj] at hm
    | arr xs => simp [Json.isObj] at hm

theorem normalize_messages_of_history (msgs : List Json) (prompt : String)
    (hist : List ChatMessage) (hh : normalizeHistory msgs = .ok hist) :
    _normalize_messages msgs prompt =
      .ok (systemMessage :: hist ++ (if prompt = "" then [] else [userMessage prompt])) := by
  unfold _normalize_messages
  rw [hh]
  rfl

theorem generate_route_plan_cases (env : Env) (up : UpstreamOutcome) (parsed : Option Json)
    (p : String) (um : Json)
    (hp : extractPrompt (extractPayload parsed) = .ok p)
    (hm : extractMessages (extractPayload parsed) = .ok um) :
    generate_route_plan env up parsed =
      if p = "" && um.truthy = false then
        .ok ⟨⟨400, [("error", .str validationErrorMessage)]⟩, false, none⟩
      else
        (_normalize_messages (asList um) p).bind fun messages =>
          match build_client env with
          | .error e => .ok ⟨⟨500, [("error", .str e)]⟩, false, none⟩
          | .ok _ =>
            match up with
            | .err d =>
              .ok ⟨⟨502, [("error", .str upstreamErrorMessage), ("detail", .str d)]⟩,
                   true, some messages⟩
            | .ok completion => .ok ⟨⟨200, successBody completion⟩, true, some messages⟩ := by
  unfold generate_route_plan
  dsimp only
  rw [hp, hm]
  rfl

theorem isSystemPromptMsg_systemMessage : isSystemPromptMsg systemMessage = true := by
  simp [isSystemPromptMsg, systemMessage, textPart]

theorem isSystemPromptMsg_userMessage (p : String) :
    isSystemPromptMsg (userMessage p) = false := rfl

theorem asList_of_not_arr (um : Json) (h : um.isArr = false) : asList um = [] := by
  cases um <;> simp [Json.isArr] at h ⊢ <;> rfl

theorem generate_route_plan_after_validation (env : Env) (up : UpstreamOutcome)
    (parsed : Option Json) (p : String) (um : Json) (m : List ChatMessage)
    (hp : extractPrompt (extractPayload parsed) = .ok p)
    (hm : extractMessages (extractPayload parsed) = .ok um)
    (hval : (p = "" ∧ um.truthy = false) → False)
    (hn : _normalize_messages (asList um) p = .ok m) :
    generate_route_plan env up parsed =
      match build_client env with
      | .error e => .ok ⟨⟨500, [("error", .str e)]⟩, false, none⟩
      | .ok _ =>
        match up with
        | .err d =>
          .ok ⟨⟨502, [("error", .str upstreamErrorMessage), ("detail", .str d)]⟩,
               true, some m⟩
        | .ok completion => .ok ⟨⟨200, successBody completion⟩, true, some m⟩ := by
  rw [generate_route_plan_cases env up parsed p um hp hm]
  have hcond : (p = "" && um.truthy = false) = false := by
    rcases Decidable.em (p = "") with h1 | h1
    · rcases Decidable.em (um.truthy = false) with h2 | h2
      · exact absurd ⟨h1, h2⟩ hval
      · simp [h1, h2]
    · simp [h1]
  rw [hcond]
  simp only [Bool.false_eq_true, if_false]
  rw [hn]
  rfl

end HelperLemmas

/-- Claim C1 (counterexample): the claim says the system instruction occurs
exactly once in the assembled list regardless of the supplied history, but
a history entry replaying the system instruction (role `"system"`, content
the instruction text) is kept by the filter, so the assembled list contains
the system-instruction message twice. -/
theorem normalize_messages_duplicate_system :
    ((_normalize_messages [sysHistEntry] "").map (List.countP isSystemPromptMsg)).toOption =
      some 2 := by
  set_option maxRecDepth 8000 in decide

/-- Claim C1 (amended): the list assembled by `_normalize_messages` always
begins with the system-instruction message (role `"system"`, content a
single text part equal to `SYSTEM_PROMPT`), and the normalizer itself
contributes the instruction exactly once: its occurrence count in the
output is one more than its count among the normalized history entries
(the trailing prompt message, having role `"user"`, never adds one). -/
theorem normalize_messages_system_head_and_count (msgs : List Json) (prompt : String)
    (hist : List ChatMessage) (l : List ChatMessage)
    (hh : normalizeHistory msgs = .ok hist)
    (hl : _normalize_messages msgs prompt = .ok l) :
    l.head? = some systemMessage ∧
    l.countP isSystemPromptMsg = 1 + hist.countP isSystemPromptMsg := by
  rw [normalize_messages_of_history msgs prompt hist hh] at hl
  cases hl
  refine ⟨rfl, ?_⟩
  by_cases hp : prompt = "" <;>
    simp [hp, List.countP_cons, List.countP_append, isSystemPromptMsg_systemMessage,
      isSystemPromptMsg_userMessage, Nat.add_comm]

/-- Witness for C1's amended theorem at history `[]` and prompt `"hi"`. -/
theorem normalize_messages_system_head_and_count_witness :
    [systemMessage, userMessage "hi"].head? = some systemMessage ∧
    [systemMessage, userMessage "hi"].countP isSystemPromptMsg =
      1 + List.countP isSystemPromptMsg [] :=
  normalize_messages_system_head_and_count [] "hi" [] [systemMessage, userMessage "hi"] rfl rfl

/-- Claim C2: a request whose extracted prompt trims to empty and whose
`messages` field is absent (or explicitly the empty list) is answered 400
with the validation error message, and the upstream completion call is not
attempted (`upstreamCalled = false`, no message list sent). -/
theorem route_plan_empty_input_400 (env : Env) (up : UpstreamOutcome) (parsed : Option Json)
    (hp : extractPrompt (extractPayload parsed) = .ok "")
    (hm : (extractPayload parsed).get "messages" = .ok .null ∨
          (extractPayload parsed).get "messages" = .ok (.arr [])) :
    generate_route_plan env up parsed =
      .ok ⟨⟨400, [("error", .str validationErrorMessage)]⟩, false, none⟩ := by
  have hm2 : extractMessages (extractPayload parsed) = .ok (Json.arr []) := by
    rcases hm with h | h <;> (unfold extractMessages; rw [h]; rfl)
  rw [generate_route_plan_cases env up parsed "" (.arr []) hp hm2]
  rfl

/-- Witness for C2 at a whitespace-only prompt and absent `messages`. -/
theorem route_plan_empty_input_400_witness :
    generate_route_plan envEmpty (.err "x") (some (.obj [("prompt", Json.str "  ")])) =
      .ok ⟨⟨400, [("error", .str validationErrorMessage)]⟩, false, none⟩ :=
  route_plan_empty_input_400 envEmpty (.err "x") (some (.obj [("prompt", Json.str "  ")]))
    rfl (Or.inl rfl)

/-- Claim C3 (counterexample): the claim says every non-object body is
treated as the empty object with no escaping exception, but a truthy
non-object body (here the JSON array `[1]`) reaches `payload.get` and
raises an uncaught `AttributeError`, unlike the empty-object body, which
is answered 400. -/
theorem route_plan_nonobject_body_not_as_empty :
    generate_route_plan envEmpty (.err "x") (some (.arr [.num 1])) =
      .error .attributeError ∧
    generate_route_plan envEmpty (.err "x") (some (.obj [])) =
      .ok ⟨⟨400, [("error", .str validationErrorMessage)]⟩, false, none⟩ :=
  ⟨rfl, rfl⟩

/-- Claim C3 (amended): on a JSON parse failure, or when the body parses to
a falsy value (null, false, 0, the empty string, the empty array or the
empty object), the handler behaves exactly as it does on the empty object;
a truthy non-object body instead raises an uncaught `AttributeError`. -/
theorem route_plan_falsy_body_as_empty_object (env : Env) (up : UpstreamOutcome)
    (parsed : Option Json) (h : (parsed.getD Json.null).truthy = false) :
    generate_route_plan env up parsed = generate_route_plan env up (some (.obj [])) := by
  have h1 : extractPayload parsed = Json.obj [] := by
    simp [extractPayload, pyOr, h]
  have h2 : extractPayload (some (.obj [])) = Json.obj [] := rfl
  unfold generate_route_plan
  dsimp only
  rw [h1, h2]

/-- Witness for C3's amended theorem at a parse failure (`none`). -/
theorem route_plan_falsy_body_witness :
    generate_route_plan envEmpty (.err "x") none =
      generate_route_plan envEmpty (.err "x") (some (.obj [])) :=
  route_plan_falsy_body_as_empty_object envEmpty (.err "x") none rfl

/-- Claim C4 (counterexample): the claim says an entry lacking a role is
silently skipped with no error, but a non-dict history entry (here the
number 42, which has no role) makes `_normalize_messages` raise an uncaught
`AttributeError` instead of being skipped. -/
theorem normalize_messages_nondict_entry_error :
    _normalize_messages [Json.num 42] "hi" = .error .attributeError := rfl

/-- Claim C4 (amended): for every history list whose entries are all JSON
objects, `_normalize_messages` raises no error, preserves iteration order
and applies exactly the spec's per-entry filter `entrySpec` (skip on
missing/falsy role or missing content, wrap string content as one text
part, pass list content through, skip any other content shape); a
non-object entry instead raises an uncaught `AttributeError`. -/
theorem normalize_history_object_entries_filter (msgs : List Json) (prompt : String)
    (h : ∀ m ∈ msgs, m.isObj = true) :
    _normalize_messages msgs prompt =
      .ok (systemMessage :: msgs.filterMap entrySpec ++
           (if prompt = "" then [] else [userMessage prompt])) :=
  normalize_messages_of_history msgs prompt _ (normalizeHistory_objs msgs h)

/-- Witness for C4's amended theorem at a three-entry history (one kept,
one lacking both fields, one kept). -/
theorem normalize_history_object_entries_filter_witness :
    _normalize_messages
      [Json.obj [("role", Json.str "user"), ("content", Json.str "hi")],
       Json.obj [],
       Json.obj [("role", Json.str "assistant"), ("content", Json.str "ok")]] "" =
      .ok (systemMessage ::
           [Json.obj [("role", Json.str "user"), ("content", Json.str "hi")],
            Json.obj [],
            Json.obj [("role", Json.str "assistant"), ("content", Json.str "ok")]].filterMap
             entrySpec ++
           (if "" = "" then [] else [userMessage ""])) :=
  normalize_history_object_entries_filter
    [Json.obj [("role", Json.str "user"), ("content", Json.str "hi")],
     Json.obj [],
     Json.obj [("role", Json.str "assistant"), ("content", Json.str "ok")]] ""
    (by decide)

/-- Claim C5: with the handler's trimmed prompt, `_normalize_messages`
appends a trailing user message wrapping the prompt as a single text part
exactly when the trimmed prompt is non-empty; when it is empty (the prompt
was empty or whitespace-only) and the history normalized to `hist`, the
result is the system message followed by `hist` in input order, with no
trailing user message. -/
theorem normalize_messages_trailing_prompt (msgs : List Json) (prompt : String)
    (hist : List ChatMessage) (hh : normalizeHistory msgs = .ok hist) :
    (pyStripString prompt ≠ "" →
      _normalize_messages msgs (pyStripString prompt) =
        .ok (systemMessage :: hist ++ [userMessage (pyStripString prompt)])) ∧
    (pyStripString prompt = "" →
      _normalize_messages msgs (pyStripString prompt) = .ok (systemMessage :: hist)) := by
  constructor <;> intro hp <;> rw [normalize_messages_of_history msgs _ hist hh] <;> simp [hp]

/-- Witness for C5 at a one-entry history, with a whitespace-only prompt
(no trailing user message) and a padded non-empty prompt (trailing user
message present). -/
theorem normalize_messages_trailing_prompt_witness :
    (_normalize_messages [Json.obj [("role", Json.str "user"), ("content", Json.str "hi")]]
        (pyStripString "   ") =
      .ok (systemMessage :: [⟨Json.str "user", [textPart "hi"]⟩])) ∧
    (_normalize_messages [Json.obj [("role", Json.str "user"), ("content", Json.str "hi")]]
        (pyStripString " go ") =
      .ok (systemMessage :: [⟨Json.str "user", [textPart "hi"]⟩] ++
           [userMessage (pyStripString " go ")])) :=
  ⟨(normalize_messages_trailing_prompt
      [Json.obj [("role", Json.str "user"), ("content", Json.str "hi")]] "   "
      [⟨Json.str "user", [textPart "hi"]⟩] rfl).2 rfl,
   (normalize_messages_trailing_prompt
      [Json.obj [("role", Json.str "user"), ("content", Json.str "hi")]] " go "
      [⟨Json.str "user", [textPart "hi"]⟩] rfl).1 (by decide)⟩

/-- Claim C6 (counterexample): the claim says no unhandled exception
reaches the transport layer for any request, but a request with a
non-object history entry (`messages: [1]`) raises an `AttributeError` in
`_normalize_messages`, which sits before the try block and escapes the
handler unconverted. -/
theorem route_plan_unhandled_exception :
    generate_route_plan envEmpty (.err "x")
      (some (.obj [("messages", .arr [.num 1])])) = .error .attributeError := rfl

/-- Claim C6 (amended): whenever body extraction and message normalization
succeed, every error is caught at the endpoint boundary: the handler
returns a structured response (never an escaping exception), a
`ConfigurationError` is mapped to 500 with its message in `error`, and an
upstream failure is mapped to 502 with the generic message in `error` and
the raw error text in `detail`; exceptions raised before the try block
(truthy non-object body, truthy non-string prompt, non-object history
entry) escape unhandled. -/
theorem route_plan_error_mapping (env : Env) (up : UpstreamOutcome) (parsed : Option Json)
    (p : String) (um : Json) (m : List ChatMessage)
    (hp : extractPrompt (extractPayload parsed) = .ok p)
    (hm : extractMessages (extractPayload parsed) = .ok um)
    (hn : _normalize_messages (asList um) p = .ok m) :
    (generate_route_plan env up parsed).isOk = true ∧
    (∀ e, build_client env = .error e → ((p = "" ∧ um.truthy = false) → False) →
      generate_route_plan env up parsed =
        .ok ⟨⟨500, [("error", Json.str e)]⟩, false, none⟩) ∧
    (∀ d c, build_client env = .ok c → up = .err d → ((p = "" ∧ um.truthy = false) → False) →
      generate_route_plan env up parsed =
        .ok ⟨⟨502, [("error", Json.str upstreamErrorMessage), ("detail", Json.str d)]⟩,
             true, some m⟩) := by
  refine ⟨?_, ?_, ?_⟩
  · rw [generate_route_plan_cases env up parsed p um hp hm]
    split
    · rfl
    · rw [hn]
      show (match build_client env with
            | Except.error e =>
              Except.ok (⟨⟨500, [("error", Json.str e)]⟩, false, none⟩ : HandlerResult)
            | Except.ok _ =>
              match up with
              | .err d =>
                .ok ⟨⟨502, [("error", .str upstreamErrorMessage), ("detail", .str d)]⟩,
                     true, some m⟩
              | .ok completion =>
                .ok ⟨⟨200, successBody completion⟩, true, some m⟩).isOk = true
      cases build_client env
      · rfl
      · cases up <;> rfl
  · intro e hb hval
    rw [generate_route_plan_after_validation env up parsed p um m hp hm hval hn, hb]
  · intro d c hb hup hval
    subst hup
    rw [generate_route_plan_after_validation env (.err d) parsed p um m hp hm hval hn, hb]

/-- Witness for C6's amended theorem: with no configuration set and prompt
`"hi"`, the handler returns a structured 500 carrying the configuration
error message. -/
theorem route_plan_error_mapping_witness :
    (generate_route_plan envEmpty (.err "x")
        (some (.obj [("prompt", Json.str "hi")]))).isOk = true ∧
    generate_route_plan envEmpty (.err "x") (some (.obj [("prompt", Json.str "hi")])) =
      .ok ⟨⟨500, [("error", Json.str configErrorMessage)]⟩, false, none⟩ :=
  ⟨(route_plan_error_mapping envEmpty (.err "x") (some (.obj [("prompt", Json.str "hi")]))
      "hi" (.arr []) [systemMessage, userMessage "hi"] rfl rfl rfl).1,
   (route_plan_error_mapping envEmpty (.err "x") (some (.obj [("prompt", Json.str "hi")]))
      "hi" (.arr []) [systemMessage, userMessage "hi"] rfl rfl rfl).2.1
     configErrorMessage rfl (by simp)⟩

/-- Claim C7: on a successful upstream completion the endpoint responds 200
with `successBody`: `content` is the first choice's message content
(defaulting to the empty string when the choice, its message or its content
is absent), `usage` is always present (nullable), `finish_reason` appears
only when the upstream provided one (and is omitted when absent), and
`message_role` appears exactly when the first choice carries a message. -/
theorem route_plan_success_shape (env : Env) (up : UpstreamOutcome) (parsed : Option Json)
    (p : String) (um : Json) (m : List ChatMessage) (c : Completion) (cfg : ClientInfo)
    (hp : extractPrompt (extractPayload parsed) = .ok p)
    (hm : extractMessages (extractPayload parsed) = .ok um)
    (hval : (p = "" ∧ um.truthy = false) → False)
    (hn : _normalize_messages (asList um) p = .ok m)
    (hb : build_client env = .ok cfg) (hup : up = .ok c) :
    generate_route_plan env up parsed = .ok ⟨⟨200, successBody c⟩, true, some m⟩ ∧
    (successBody c).lookup "content" =
      some (Json.str ((((c.choices.head?).bind Choice.message).bind UpMessage.content).getD "")) ∧
    (successBody c).lookup "usage" = some (c.usage.getD .null) ∧
    (((successBody c).lookup "finish_reason").isSome = true →
      ((c.choices.head?).bind Choice.finish_reason).isSome = true) ∧
    ((c.choices.head?).bind Choice.finish_reason = none →
      (successBody c).lookup "finish_reason" = none) ∧
    (successBody c).lookup "message_role" =
      ((c.choices.head?).bind Choice.message).map (fun msg => Json.str msg.role) := by
  subst hup
  refine ⟨?_, ?_⟩
  · rw [generate_route_plan_after_validation env _ parsed p um m hp hm hval hn, hb]
  · simp only [successBody]
    cases hch : c.choices.head? with
    | none => simp [List.lookup]
    | some ch =>
      cases hmsg : ch.message with
      | none =>
        cases hfr : ch.finish_reason with
        | none => simp [List.lookup, hmsg, hfr]
        | some fr =>
          by_cases hfe : fr = "" <;> simp [List.lookup, hmsg, hfr, hfe]
      | some msg =>
        cases hfr : ch.finish_reason with
        | none => simp [List.lookup, hmsg, hfr]
        | some fr =>
          by_cases hfe : fr = "" <;> simp [List.lookup, hmsg, hfr, hfe]

/-- Witness for C7 at a one-choice completion with content, role and finish
reason all present. -/
theorem route_plan_success_shape_witness :
    generate_route_plan envFull (.ok sampleCompletion)
        (some (.obj [("prompt", Json.str "hi")])) =
      .ok ⟨⟨200, successBody sampleCompletion⟩, true, some [systemMessage, userMessage "hi"]⟩ ∧
    (successBody sampleCompletion).lookup "content" =
      some (Json.str ((((sampleCompletion.choices.head?).bind Choice.message).bind
        UpMessage.content).getD "")) :=
  ⟨(route_plan_success_shape envFull (.ok sampleCompletion)
      (some (.obj [("prompt", Json.str "hi")])) "hi" (.arr [])
      [systemMessage, userMessage "hi"] sampleCompletion
      ⟨"https://example.azure.com", "secret-key", "2025-01-01-preview", "gpt-dep"⟩
      rfl rfl (by simp) rfl rfl rfl).1,
   (route_plan_success_shape envFull (.ok sampleCompletion)
      (some (.obj [("prompt", Json.str "hi")])) "hi" (.arr [])
      [systemMessage, userMessage "hi"] sampleCompletion
      ⟨"https://example.azure.com", "secret-key", "2025-01-01-preview", "gpt-dep"⟩
      rfl rfl (by simp) rfl rfl rfl).2.1⟩

/-- Claim C8: configuration resolution through the `lru_cache` layer is
consistent across calls (a second call returns exactly the first call's
outcome, reusing the cached value on success and recomputing the same
failure otherwise), `build_client` fails exactly when endpoint, deployment
or API key resolves to an unset-or-empty value, the failure always carries
the user-facing configuration error message, the API version defaults to
"2025-01-01-preview" when unset, and when configuration is missing the
handler answers 500 without ever attempting the upstream call. -/
theorem build_client_resolution (env : Env) :
    ((build_client_cached env ((build_client_cached env none).2)).1 =
      (build_client_cached env none).1) ∧
    ((build_client env).isOk = false ↔
      (optFalsy (resolveEndpoint env) = true ∨ optFalsy (resolveDeployment env) = true ∨
       optFalsy env.azure_openai_api_key = true)) ∧
    (∀ e, build_client env = .error e → e = configErrorMessage) ∧
    (env.azure_openai_api_version = none →
      ∀ c, build_client env = .ok c → c.api_version = "2025-01-01-preview") ∧
    (∀ e, build_client env = .error e →
      ∀ up parsed p um m,
        extractPrompt (extractPayload parsed) = .ok p →
        extractMessages (extractPayload parsed) = .ok um →
        ((p = "" ∧ um.truthy = false) → False) →
        _normalize_messages (asList um) p = .ok m →
        generate_route_plan env up parsed =
          .ok ⟨⟨500, [("error", Json.str e)]⟩, false, none⟩) := by
  refine ⟨?_, ?_, ?_, ?_, ?_⟩
  · cases hb : build_client env <;> simp [build_client_cached, hb]
  · dsimp only [build_client]
    split
    case isTrue h =>
      simp only [Bool.or_eq_true] at h
      simp [Except.isOk]
      tauto
    case isFalse h =>
      simp only [Bool.or_eq_true] at h
      push_neg at h
      simp [Except.isOk, h]
      tauto
  · intro e he
    dsimp only [build_client] at he
    split at he
    · exact (Except.error.inj he).symm
    · exact Except.noConfusion he
  · intro hv c hc
    dsimp only [build_client] at hc
    split at hc
    · exact Except.noConfusion hc
    · rw [← Except.ok.inj hc]
      simp [hv]
  · intro e he up parsed p um m hp hm hval hn
    rw [generate_route_plan_after_validation env up parsed p um m hp hm hval hn, he]

/-- Witness for C8 at the empty environment (everything missing) and, for
the default-version conjunct, checked through the consistency conjunct at
the fully-set environment. -/
theorem build_client_resolution_witness :
    ((build_client_cached envEmpty ((build_client_cached envEmpty none).2)).1 =
      (build_client_cached envEmpty none).1) ∧
    generate_route_plan envEmpty (.err "x") (some (.obj [("prompt", Json.str "hi")])) =
      .ok ⟨⟨500, [("error", Json.str configErrorMessage)]⟩, false, none⟩ ∧
    (envFull.azure_openai_api_version = none →
      ∀ c, build_client envFull = .ok c → c.api_version = "2025-01-01-preview") :=
  ⟨(build_client_resolution envEmpty).1,
   (build_client_resolution envEmpty).2.2.2.2 configErrorMessage rfl (.err "x")
     (some (.obj [("prompt", Json.str "hi")])) "hi" (.arr [])
     [systemMessage, userMessage "hi"] rfl rfl (by simp) rfl,
   (build_client_resolution envFull).2.2.2.1⟩

/-- Claim C9: when the `messages` field is truthy but not a list and the
trimmed prompt is empty, the 400 validation check passes, normalization
treats the history as empty, and the upstream call is attempted with a
message list containing only the system message. -/
theorem route_plan_nonlist_messages_system_only (env : Env) (up : UpstreamOutcome)
    (parsed : Option Json) (um : Json) (cfg : ClientInfo)
    (hp : extractPrompt (extractPayload parsed) = .ok "")
    (hm : extractMessages (extractPayload parsed) = .ok um)
    (ht : um.truthy = true) (hl : um.isArr = false)
    (hb : build_client env = .ok cfg) :
    (generate_route_plan env up parsed).map
        (fun r => (r.upstreamCalled, r.sentMessages)) =
      .ok (true, some [systemMessage]) := by
  have hn : _normalize_messages (asList um) "" = .ok [systemMessage] := by
    rw [asList_of_not_arr um hl]
    rfl
  have hval : (("" : String) = "" ∧ um.truthy = false) → False := by
    rintro ⟨-, h2⟩
    rw [ht] at h2
    exact Bool.noConfusion h2
  rw [generate_route_plan_after_validation env up parsed "" um [systemMessage] hp hm hval hn,
    hb]
  cases up <;> rfl

/-- Witness for C9 with `messages` supplied as a non-empty JSON object. -/
theorem route_plan_nonlist_messages_system_only_witness :
    (generate_route_plan envFull (.err "x")
        (some (.obj [("messages", .obj [("x", Json.num 1)])]))).map
        (fun r => (r.upstreamCalled, r.sentMessages)) =
      .ok (true, some [systemMessage]) :=
  route_plan_nonlist_messages_system_only envFull (.err "x")
    (some (.obj [("messages", .obj [("x", Json.num 1)])])) (.obj [("x", Json.num 1)])
    ⟨"https://example.azure.com", "secret-key", "2025-01-01-preview", "gpt-dep"⟩
    rfl rfl rfl rfl rfl

/-- Claim C10: in the history filter the content check compares to `None`
only — an entry whose content is the empty string is kept (wrapped as one
text part with empty text), an entry whose content is a number, boolean or
object is skipped, and an entry whose role is falsy is skipped. -/
theorem normalize_entry_content_check (kvs : List (String × Json)) (role content : Json)
    (hr : (kvs.lookup "role").getD .null = role)
    (hc : (kvs.lookup "content").getD .null = content) :
    (role.truthy = true → content = .str "" →
      normalizeEntry (.obj kvs) = .ok (some ⟨role, [textPart ""]⟩)) ∧
    (∀ n, content = .num n → normalizeEntry (.obj kvs) = .ok none) ∧
    (∀ b, content = .bool b → normalizeEntry (.obj kvs) = .ok none) ∧
    (∀ kvs2, content = .obj kvs2 → normalizeEntry (.obj kvs) = .ok none) ∧
    (role.truthy = false → normalizeEntry (.obj kvs) = .ok none) := by
  subst hr
  subst hc
  rw [normalizeEntry_obj kvs]
  unfold entrySpec
  dsimp only
  refine ⟨?_, ?_, ?_, ?_, ?_⟩
  · intro h1 h2
    rw [h2]
    simp [h1]
  · intro n h2
    rw [h2]
    cases hr2 : ((kvs.lookup "role").getD Json.null).truthy <;> simp [hr2]
  · intro b h2
    rw [h2]
    cases hr2 : ((kvs.lookup "role").getD Json.null).truthy <;> simp [hr2]
  · intro kvs2 h2
    rw [h2]
    cases hr2 : ((kvs.lookup "role").getD Json.null).truthy <;> simp [hr2]
  · intro h1
    simp [h1]

/-- Witness for C10: an empty-string content is kept with an empty text
part; a numeric content is skipped. -/
theorem normalize_entry_content_check_witness :
    normalizeEntry (.obj [("role", Json.str "user"), ("content", Json.str "")]) =
      .ok (some ⟨Json.str "user", [textPart ""]⟩) ∧
    normalizeEntry (.obj [("role", Json.str "user"), ("content", Json.num 5)]) =
      .ok none :=
  ⟨(normalize_entry_content_check [("role", Json.str "user"), ("content", Json.str "")]
      (Json.str "user") (Json.str "") rfl rfl).1 rfl rfl,
   (normalize_entry_content_check [("role", Json.str "user"), ("content", Json.num 5)]
      (Json.str "user") (Json.num 5) rfl rfl).2.1 5 rfl⟩

end RoutePlan
